import Mathlib

/-!
Verification of the sgtravel-co2-calculator row-processing pipeline
(`src/app.py`) against its design document.

Numeric quantities computed by the Python code (distances, emissions,
trigonometry) are modelled over the real numbers; the Python `round(x, n)`
is modelled as rounding `x * 10^n` to the nearest integer.  String and
table manipulation is modelled directly over Lean `String`s and lists.
The two external effects — the geocoding HTTP call and the failure
mode of the routing distance call — are parameters of the pipeline model:
`geocode : String → Option κ` and `calcDist : κ → κ → Option ℝ`.
-/

open Real

/-- Rounding to `n` decimal places, the real-number idealisation of
the Python `round(x, n)`. -/
noncomputable def roundTo (n : ℕ) (x : ℝ) : ℝ :=
  ((round (x * 10 ^ n) : ℤ) : ℝ) / 10 ^ n

/-- Degrees to radians, as `math.radians` (app.py lines 74-77). -/
noncomputable def radians (d : ℝ) : ℝ := d * π / 180

/-- The Python function `math.atan2 y x`, the angle of the point `(x, y)`. -/
noncomputable def atan2 (y x : ℝ) : ℝ :=
  if 0 < x then arctan (y / x)
  else if x < 0 then
    if 0 ≤ y then arctan (y / x) + π
    else arctan (y / x) - π
  else if 0 < y then π / 2
  else if y < 0 then -(π / 2)
  else 0

/-- The haversine intermediate `a` of app.py lines 79-81:
`a = sin(Δlat/2)·sin(Δlat/2) + cos(lat1)·cos(lat2)·sin(Δlng/2)·sin(Δlng/2)`
(all angles first converted to radians, lines 74-77). -/
noncomputable def haversine_a (lat1 lng1 lat2 lng2 : ℝ) : ℝ :=
  Real.sin (radians (lat2 - lat1) / 2) * Real.sin (radians (lat2 - lat1) / 2) +
    Real.cos (radians lat1) * Real.cos (radians lat2) *
      Real.sin (radians (lng2 - lng1) / 2) * Real.sin (radians (lng2 - lng1) / 2)

/-- Function `calculate_driving_distance` of app.py lines 54-93, on coordinates
given as two (lat, lng) pairs: `c = 2·atan2(√a, √(1-a))`,
`straight_distance = 6371·c`, `road_distance = straight_distance·1.3`,
returned as `round(road_distance, 2)`.  (In the real-number model no
arithmetic exception can occur, so the `except` branch returning `None`
is unreachable and the function is total.) -/
noncomputable def calculate_driving_distance (lat1 lng1 lat2 lng2 : ℝ) : ℝ :=
  roundTo 2 (6371 *
    (2 * atan2 (Real.sqrt (haversine_a lat1 lng1 lat2 lng2))
      (Real.sqrt (1 - haversine_a lat1 lng1 lat2 lng2))) * 1.3)

/-- Modelled from the spec (§4.2, glossary): the great-circle distance
between two coordinates by the haversine formula on a sphere of radius
6371 km, in its canonical `d = 2 R arcsin √a` form.  This is the
spec-side definition used to compare `calculate_driving_distance`
against the words of the design document. -/
noncomputable def haversine_spec (lat1 lng1 lat2 lng2 : ℝ) : ℝ :=
  2 * 6371 * Real.arcsin (Real.sqrt (haversine_a lat1 lng1 lat2 lng2))

/-- Constant `EMISSION_FACTOR_KG_CO2_PER_KM` of app.py line 24. -/
noncomputable def EMISSION_FACTOR_KG_CO2_PER_KM : ℝ := 0.2

/-- The emission computation of app.py line 152:
`round(distance * EMISSION_FACTOR_KG_CO2_PER_KM, 3)`. -/
noncomputable def emission_of_distance (d : ℝ) : ℝ :=
  roundTo 3 (d * EMISSION_FACTOR_KG_CO2_PER_KM)

/-- Modelled from the spec (§4.3): the Emission Calculator contract
`emission_kg = round(distance_km × 0.2, 3)`. -/
noncomputable def emissions_spec (d : ℝ) : ℝ := roundTo 3 (d * 0.2)

/- ---------------- Batch pipeline (process_csv_file) ---------------- -/

/-- The Python method `str.strip()` (and pandas `.str.strip()`): drop whitespace
from both ends.  Defined structurally over the character list so that it
evaluates by kernel reduction. -/
def pyStrip (s : String) : String :=
  ⟨((s.data.dropWhile Char.isWhitespace).reverse.dropWhile Char.isWhitespace).reverse⟩

/-- The Python method `str.lower()`, character by character. -/
def pyLower (s : String) : String := ⟨s.data.map Char.toLower⟩

/-- Does `needle` occur at the head of `hay`? (character-list matching). -/
def charsStartWith : List Char → List Char → Bool
  | [], _ => true
  | _ :: _, [] => false
  | a :: as, b :: bs => a == b && charsStartWith as bs

/-- Does `needle` occur anywhere inside `hay`?  Models the Python
substring test `needle in hay`. -/
def charsHaveSub (needle : List Char) : List Char → Bool
  | [] => needle.isEmpty
  | c :: rest => charsStartWith needle (c :: rest) || charsHaveSub needle rest

/-- The Python containment test `sub in s`. -/
def strHasSub (s sub : String) : Bool := charsHaveSub sub.data s.data

/-- app.py line 107: the header matches the start-address column when its
lowercasing contains both `start` and `address`. -/
def isStartCol (col : String) : Bool :=
  strHasSub (pyLower col) "start" && strHasSub (pyLower col) "address"

/-- app.py line 109: the header matches the end-address column when its
lowercasing contains both `end` and `address`. -/
def isEndCol (col : String) : Bool :=
  strHasSub (pyLower col) "end" && strHasSub (pyLower col) "address"

/-- The column-mapping loop of app.py lines 103-110: scan the headers in
order; a start-matching header overwrites the start entry, otherwise
(`elif`) an end-matching header overwrites the end entry. -/
def findMapping (headers : List String) : Option String × Option String :=
  headers.foldl
    (fun m col =>
      if isStartCol col then (some col, m.2)
      else if isEndCol col then (m.1, some col)
      else m)
    (none, none)

/-- Cell access `row[name]` by column label: the value at the first
index whose header equals `name`.  A missing cell is what pandas fills
with NaN, which `str()` renders as `"nan"`. -/
def getCell (headers row : List String) (name : String) : String :=
  row.getD (headers.findIdx fun h => h == name) "nan"

/-- Model of `pd.isna` applied to the result of `str(...)`: a Python `str` is
never NA, so this is constantly `false` (app.py line 127 applies it
after the `str(...)` conversion on lines 124-125). -/
def pd_isna_str (_ : String) : Bool := false

/-- The per-row outcome: the three cells written into the new columns
(app.py lines 128-157), whether `processed_count += 1` ran (line 159),
and the addresses passed to `geocode_address`, in call order. -/
structure RowResult where
  distance : Option ℝ
  emission : Option ℝ
  status : String
  counted : Bool
  calls : List String

/-- One iteration of the loop of app.py lines 123-162, parameterised by
the external geocoder and distance calculator.  `startRaw`/`endRaw` are
the two address cells; the code takes `str(...).strip()` of each and
then branches exactly as lines 127-159. -/
noncomputable def processRow {κ : Type} (geocode : String → Option κ)
    (calcDist : κ → κ → Option ℝ) (startRaw endRaw : String) : RowResult :=
  let start_addr := pyStrip startRaw
  let end_addr := pyStrip endRaw
  if pd_isna_str start_addr || pd_isna_str end_addr ||
      start_addr == "nan" || end_addr == "nan" then
    ⟨none, none, "Unable to calculate - Missing address", false, []⟩
  else
    match geocode start_addr with
    | none => ⟨none, none, "Unable to calculate - Start address not found", false, [start_addr]⟩
    | some start_coords =>
      match geocode end_addr with
      | none =>
        ⟨none, none, "Unable to calculate - End address not found", false,
          [start_addr, end_addr]⟩
      | some end_coords =>
        match calcDist start_coords end_coords with
        | none =>
          ⟨none, none, "Unable to calculate - Distance calculation failed", false,
            [start_addr, end_addr]⟩
        | some distance =>
          ⟨some distance, some (emission_of_distance distance), "Success", true,
            [start_addr, end_addr]⟩

/-- An input table: the header row and the data rows (cells as the
strings pandas would render). -/
structure Table where
  headers : List String
  rows : List (List String)

/-- Function `process_csv_file` of app.py lines 95-167.  Headers are stripped
(line 102), the two address columns located (lines 103-113); on failure
the batch aborts with the structural error message and no table.
Otherwise every row is processed in order, the success counter
accumulated, and the augmented table plus the summary string returned
(lines 116-164). -/
noncomputable def process_csv_file {κ : Type} (geocode : String → Option κ)
    (calcDist : κ → κ → Option ℝ) (t : Table) :
    Option (List String × List (List String × RowResult)) × String :=
  let headers := t.headers.map pyStrip
  match findMapping headers with
  | (some startCol, some endCol) =>
    let result := t.rows.foldl
      (fun acc r =>
        let res := processRow geocode calcDist
          (getCell headers r startCol) (getCell headers r endCol)
        (if res.counted then acc.1 + 1 else acc.1, acc.2 ++ [(r, res)]))
      ((0 : ℕ), [])
    (some (headers ++ ["Distance_KM", "CO2_Emissions_KG", "Calculation_Status"], result.2),
      "Processed " ++ toString result.1 ++ " out of " ++ toString t.rows.length ++
        " records successfully")
  | _ =>
    (none, "CSV must contain \x27Start Address\x27 and \x27End Address\x27 columns")

/- ---------------- Lemmas on the distance estimator ---------------- -/

theorem radians_mem_Icc {lat : ℝ} (h1 : -90 ≤ lat) (h2 : lat ≤ 90) :
    radians lat ∈ Set.Icc (-(π / 2)) (π / 2) := by
  unfold radians
  constructor
  · nlinarith [Real.pi_pos]
  · nlinarith [Real.pi_pos]

theorem cos_radians_nonneg {lat : ℝ} (h1 : -90 ≤ lat) (h2 : lat ≤ 90) :
    0 ≤ Real.cos (radians lat) :=
  Real.cos_nonneg_of_mem_Icc (radians_mem_Icc h1 h2)

theorem haversine_a_nonneg (lat1 lng1 lat2 lng2 : ℝ)
    (h1 : -90 ≤ lat1) (h2 : lat1 ≤ 90) (h3 : -90 ≤ lat2) (h4 : lat2 ≤ 90) :
    0 ≤ haversine_a lat1 lng1 lat2 lng2 := by
  unfold haversine_a
  have c1 := cos_radians_nonneg h1 h2
  have c2 := cos_radians_nonneg h3 h4
  have s1 := mul_self_nonneg (Real.sin (radians (lat2 - lat1) / 2))
  have s2 := mul_self_nonneg (Real.sin (radians (lng2 - lng1) / 2))
  nlinarith [mul_nonneg (mul_nonneg c1 c2) s2]

theorem haversine_a_le_one (lat1 lng1 lat2 lng2 : ℝ)
    (h1 : -90 ≤ lat1) (h2 : lat1 ≤ 90) (h3 : -90 ≤ lat2) (h4 : lat2 ≤ 90) :
    haversine_a lat1 lng1 lat2 lng2 ≤ 1 := by
  unfold haversine_a
  have hrad : radians (lat2 - lat1) = radians lat2 - radians lat1 := by
    unfold radians; ring
  rw [hrad]
  set a1 := radians lat1
  set a2 := radians lat2
  have c1 := cos_radians_nonneg h1 h2
  have c2 := cos_radians_nonneg h3 h4
  have hcos2 : Real.cos ((a2 - a1) / 2) ^ 2 = 1 / 2 + Real.cos (a2 - a1) / 2 := by
    have := Real.cos_sq ((a2 - a1) / 2)
    rw [show 2 * ((a2 - a1) / 2) = a2 - a1 by ring] at this
    exact this
  have hpyth := Real.sin_sq_add_cos_sq ((a2 - a1) / 2)
  have hsub := Real.cos_sub a2 a1
  have hadd := Real.cos_add a1 a2
  have hle := Real.cos_le_one (a1 + a2)
  have hlngsq := Real.sin_sq_le_one (radians (lng2 - lng1) / 2)
  have hprod : 0 ≤ Real.cos a1 * Real.cos a2 *
      (1 - Real.sin (radians (lng2 - lng1) / 2) ^ 2) :=
    mul_nonneg (mul_nonneg c1 c2) (by linarith)
  nlinarith [hcos2, hpyth, hsub, hadd, hle, hprod]

theorem atan2_sqrt_eq_arcsin {a : ℝ} (h0 : 0 ≤ a) (h1 : a ≤ 1) :
    atan2 (Real.sqrt a) (Real.sqrt (1 - a)) = Real.arcsin (Real.sqrt a) := by
  rcases eq_or_lt_of_le h1 with he | hlt
  · subst he
    rw [sub_self, Real.sqrt_zero, Real.sqrt_one, atan2]
    norm_num [Real.arcsin_one, Real.pi_pos]
  · have hx : 0 < Real.sqrt (1 - a) := Real.sqrt_pos.mpr (by linarith)
    rw [atan2, if_pos hx, Real.arcsin_eq_arctan, Real.sq_sqrt h0]
    constructor
    · exact lt_of_lt_of_le (by norm_num) (Real.sqrt_nonneg a)
    · calc Real.sqrt a < Real.sqrt 1 := Real.sqrt_lt_sqrt h0 hlt
        _ = 1 := Real.sqrt_one

theorem calculate_eq_spec (lat1 lng1 lat2 lng2 : ℝ)
    (h1 : -90 ≤ lat1) (h2 : lat1 ≤ 90) (h3 : -90 ≤ lat2) (h4 : lat2 ≤ 90) :
    calculate_driving_distance lat1 lng1 lat2 lng2 =
      roundTo 2 (haversine_spec lat1 lng1 lat2 lng2 * 1.3) := by
  unfold calculate_driving_distance haversine_spec
  rw [atan2_sqrt_eq_arcsin (haversine_a_nonneg lat1 lng1 lat2 lng2 h1 h2 h3 h4)
    (haversine_a_le_one lat1 lng1 lat2 lng2 h1 h2 h3 h4)]
  congr 1
  ring

theorem atan2_nonneg {y : ℝ} (x : ℝ) (hy : 0 ≤ y) : 0 ≤ atan2 y x := by
  unfold atan2
  by_cases h1 : 0 < x
  · rw [if_pos h1]
    calc (0 : ℝ) = Real.arctan 0 := Real.arctan_zero.symm
      _ ≤ Real.arctan (y / x) := Real.arctan_strictMono.monotone (div_nonneg hy h1.le)
  · rw [if_neg h1]
    by_cases h2 : x < 0
    · rw [if_pos h2, if_pos hy]
      have := Real.neg_pi_div_two_lt_arctan (y / x)
      have := Real.pi_pos
      linarith
    · rw [if_neg h2]
      by_cases h3 : 0 < y
      · rw [if_pos h3]
        have := Real.pi_pos
        linarith
      · rw [if_neg h3, if_neg (not_lt.mpr hy)]

theorem roundTo_nonneg {x : ℝ} (n : ℕ) (h : 0 ≤ x) : 0 ≤ roundTo n x := by
  unfold roundTo
  have hr : (0 : ℤ) ≤ round (x * 10 ^ n) := by
    rw [round_eq]
    refine Int.le_floor.mpr ?_
    push_cast
    positivity
  exact div_nonneg (by exact_mod_cast hr) (by positivity)

theorem roundTo_zero (n : ℕ) : roundTo n 0 = 0 := by
  unfold roundTo
  norm_num

theorem roundTo_eq_zero {x : ℝ} (n : ℕ) (h0 : 0 ≤ x) (h1 : x * 10 ^ n < 1 / 2) :
    roundTo n x = 0 := by
  unfold roundTo
  have hz : round (x * 10 ^ n) = 0 := by
    rw [round_eq, Int.floor_eq_zero_iff]
    constructor
    · have : 0 ≤ x * 10 ^ n := by positivity
      linarith
    · linarith
  rw [hz]
  norm_num

theorem le_roundTo (n : ℕ) (x : ℝ) : x ≤ roundTo n x + 1 / (2 * 10 ^ n) := by
  unfold roundTo
  have h10 : (0 : ℝ) < 10 ^ n := by positivity
  have h2 : x * 10 ^ n ≤ ((round (x * 10 ^ n) : ℤ) : ℝ) + 1 / 2 := by
    have := (abs_le.mp (abs_sub_round (x * 10 ^ n))).2
    linarith
  have h3 : x * 10 ^ n / 10 ^ n ≤ (((round (x * 10 ^ n) : ℤ) : ℝ) + 1 / 2) / 10 ^ n :=
    (div_le_div_right h10).mpr h2
  rw [mul_div_cancel_right₀ x (ne_of_gt h10)] at h3
  have h4 : (((round (x * 10 ^ n) : ℤ) : ℝ) + 1 / 2) / 10 ^ n =
      ((round (x * 10 ^ n) : ℤ) : ℝ) / 10 ^ n + 1 / (2 * 10 ^ n) := by
    field_simp
    ring
  rw [h4] at h3
  exact h3

theorem haversine_spec_nonneg (lat1 lng1 lat2 lng2 : ℝ) :
    0 ≤ haversine_spec lat1 lng1 lat2 lng2 :=
  mul_nonneg (by norm_num) (Real.arcsin_nonneg.mpr (Real.sqrt_nonneg _))

theorem radians_half_bounds {e : ℝ} (h0 : 0 ≤ e) (h1 : e < 180) :
    0 ≤ radians e / 2 ∧ radians e / 2 < π / 2 := by
  unfold radians
  constructor
  · positivity
  · nlinarith [Real.pi_pos]

theorem haversine_a_equator (e : ℝ) :
    haversine_a 0 0 0 e = Real.sin (radians e / 2) * Real.sin (radians e / 2) := by
  unfold haversine_a radians
  norm_num

theorem sqrt_haversine_a_equator {e : ℝ} (h0 : 0 ≤ e) (h1 : e < 180) :
    Real.sqrt (haversine_a 0 0 0 e) = Real.sin (radians e / 2) ∧
      Real.sqrt (1 - haversine_a 0 0 0 e) = Real.cos (radians e / 2) := by
  obtain ⟨ht0, ht2⟩ := radians_half_bounds h0 h1
  have hπ := Real.pi_pos
  have hsin : 0 ≤ Real.sin (radians e / 2) :=
    Real.sin_nonneg_of_nonneg_of_le_pi ht0 (by linarith)
  have hcos : 0 < Real.cos (radians e / 2) :=
    Real.cos_pos_of_mem_Ioo ⟨by linarith, ht2⟩
  constructor
  · rw [haversine_a_equator]
    exact Real.sqrt_mul_self hsin
  · rw [haversine_a_equator]
    have hone : 1 - Real.sin (radians e / 2) * Real.sin (radians e / 2) =
        Real.cos (radians e / 2) * Real.cos (radians e / 2) := by
      have := Real.sin_sq_add_cos_sq (radians e / 2)
      nlinarith [this]
    rw [hone]
    exact Real.sqrt_mul_self hcos.le

theorem calc_equator {e : ℝ} (h0 : 0 ≤ e) (h1 : e < 180) :
    calculate_driving_distance 0 0 0 e =
      roundTo 2 (6371 * (2 * (radians e / 2)) * 1.3) := by
  obtain ⟨ht0, ht2⟩ := radians_half_bounds h0 h1
  obtain ⟨hsq, hsq1⟩ := sqrt_haversine_a_equator h0 h1
  have hcos : 0 < Real.cos (radians e / 2) :=
    Real.cos_pos_of_mem_Ioo ⟨by linarith [Real.pi_pos], ht2⟩
  unfold calculate_driving_distance
  rw [hsq, hsq1]
  have hat : atan2 (Real.sin (radians e / 2)) (Real.cos (radians e / 2)) = radians e / 2 := by
    rw [atan2, if_pos hcos, ← Real.tan_eq_sin_div_cos]
    exact Real.arctan_tan (by linarith) ht2
  rw [hat]

theorem haversine_spec_equator {e : ℝ} (h0 : 0 ≤ e) (h1 : e < 180) :
    haversine_spec 0 0 0 e = 2 * 6371 * (radians e / 2) := by
  obtain ⟨ht0, ht2⟩ := radians_half_bounds h0 h1
  obtain ⟨hsq, _⟩ := sqrt_haversine_a_equator h0 h1
  unfold haversine_spec
  rw [hsq]
  congr 1
  exact Real.arcsin_sin (by linarith [Real.pi_pos]) (by linarith)

/- ---------------- Claims C2, C3, C5, C6 ---------------- -/

/-- C2: for every pair of coordinates with latitudes in [-90, 90] and
longitudes in [-180, 180], the Distance Estimator returns the haversine
great-circle distance (spherical Earth, radius 6371 km) scaled by the
road-circuity multiplier 1.3 and rounded to 2 decimal places. -/
theorem C2_distance_is_rounded_scaled_haversine (lat1 lng1 lat2 lng2 : ℝ)
    (h1 : -90 ≤ lat1) (h2 : lat1 ≤ 90) (h3 : -90 ≤ lat2) (h4 : lat2 ≤ 90)
    (h5 : -180 ≤ lng1) (h6 : lng1 ≤ 180) (h7 : -180 ≤ lng2) (h8 : lng2 ≤ 180) :
    calculate_driving_distance lat1 lng1 lat2 lng2 =
      roundTo 2 (haversine_spec lat1 lng1 lat2 lng2 * 1.3) :=
  calculate_eq_spec lat1 lng1 lat2 lng2 h1 h2 h3 h4

theorem C2_distance_is_rounded_scaled_haversine_witness :
    ((-90 : ℝ) ≤ 1 ∧ (1 : ℝ) ≤ 90 ∧ (-180 : ℝ) ≤ 103 ∧ (103 : ℝ) ≤ 180) ∧
      calculate_driving_distance 1 103 2 104 =
        roundTo 2 (haversine_spec 1 103 2 104 * 1.3) :=
  ⟨by norm_num,
    C2_distance_is_rounded_scaled_haversine 1 103 2 104 (by norm_num) (by norm_num)
      (by norm_num) (by norm_num) (by norm_num) (by norm_num) (by norm_num) (by norm_num)⟩

/-- C3: the Emission Calculator is a total function (in the real-number
model every nonnegative distance yields a value, no failure branch), and
its value is exactly `round(d * 0.2, 3)` — the code expression
`round(distance * EMISSION_FACTOR_KG_CO2_PER_KM, 3)` coincides with the
spec formula. -/
theorem C3_emission_calculator_exact (d : ℝ) (h : 0 ≤ d) :
    emission_of_distance d = emissions_spec d ∧
      emission_of_distance d = roundTo 3 (d * 0.2) :=
  ⟨rfl, rfl⟩

theorem C3_emission_calculator_exact_witness :
    (0 : ℝ) ≤ 5 ∧
      (emission_of_distance 5 = emissions_spec 5 ∧
        emission_of_distance 5 = roundTo 3 (5 * 0.2)) :=
  ⟨by norm_num, C3_emission_calculator_exact 5 (by norm_num)⟩

/-- C5 as stated is false: rounding to two decimals sends small positive
distances to zero, so a pair of distinct coordinates (here two points on
the equator whose longitudes differ by 10⁻⁹ degrees, both within the
valid ranges) yields a returned distance of exactly 0. -/
theorem C5_counterexample :
    calculate_driving_distance 0 0 0 (1 / 1000000000) = 0 ∧
      (1 : ℝ) / 1000000000 ≠ 0 := by
  constructor
  · rw [calc_equator (by norm_num) (by norm_num)]
    apply roundTo_eq_zero
    · unfold radians
      positivity
    · unfold radians
      nlinarith [Real.pi_le_four, Real.pi_pos]
  · norm_num

/-- C5 (amended): the Distance Estimator output is never negative, and
when origin equals destination it is zero.  (The converse — zero only
for identical coordinates — does not survive the 2-decimal rounding;
see the counterexample.) -/
theorem C5_amended_nonneg_and_zero_on_equal (lat1 lng1 lat2 lng2 : ℝ)
    (h1 : -90 ≤ lat1) (h2 : lat1 ≤ 90) (h3 : -90 ≤ lat2) (h4 : lat2 ≤ 90)
    (h5 : -180 ≤ lng1) (h6 : lng1 ≤ 180) (h7 : -180 ≤ lng2) (h8 : lng2 ≤ 180) :
    0 ≤ calculate_driving_distance lat1 lng1 lat2 lng2 ∧
      (lat1 = lat2 ∧ lng1 = lng2 →
        calculate_driving_distance lat1 lng1 lat2 lng2 = 0) := by
  constructor
  · unfold calculate_driving_distance
    apply roundTo_nonneg
    have hat := atan2_nonneg (Real.sqrt (1 - haversine_a lat1 lng1 lat2 lng2))
      (Real.sqrt_nonneg (haversine_a lat1 lng1 lat2 lng2))
    nlinarith [hat]
  · rintro ⟨hlat, hlng⟩
    subst hlat
    subst hlng
    have ha : haversine_a lat1 lng1 lat1 lng1 = 0 := by
      unfold haversine_a radians
      simp
    unfold calculate_driving_distance
    rw [ha, sub_zero, Real.sqrt_zero, Real.sqrt_one]
    have hz : atan2 0 1 = 0 := by
      rw [atan2, if_pos (by norm_num : (0:ℝ) < 1)]
      norm_num [Real.arctan_zero]
    rw [hz]
    norm_num [roundTo_zero]

theorem C5_amended_witness :
    0 ≤ calculate_driving_distance 1 103 1 103 ∧
      calculate_driving_distance 1 103 1 103 = 0 := by
  have h := C5_amended_nonneg_and_zero_on_equal 1 103 1 103 (by norm_num) (by norm_num)
    (by norm_num) (by norm_num) (by norm_num) (by norm_num) (by norm_num) (by norm_num)
  exact ⟨h.1, h.2 ⟨rfl, rfl⟩⟩

/-- C6 as stated is false: the code rounds the scaled distance to two
decimals, and for two equator points 10⁻⁵ degrees of longitude apart the
rounded output is 0.00 km while the unrounded haversine straight-line
distance is strictly positive, hence not ≤ the output. -/
theorem C6_counterexample :
    ¬ (haversine_spec 0 0 0 (1 / 100000) ≤
        calculate_driving_distance 0 0 0 (1 / 100000)) := by
  rw [calc_equator (by norm_num) (by norm_num),
    haversine_spec_equator (by norm_num) (by norm_num)]
  have hout : roundTo 2 (6371 * (2 * (radians (1 / 100000) / 2)) * 1.3) = 0 := by
    apply roundTo_eq_zero
    · unfold radians
      positivity
    · unfold radians
      nlinarith [Real.pi_le_four, Real.pi_pos]
  rw [hout]
  refine not_le.mpr ?_
  unfold radians
  positivity

/-- C6 (amended): the unrounded haversine straight-line distance is at
most the Distance Estimator output plus half of the final rounding unit
(0.005 km); the original inequality without the 0.005 allowance is
defeated only by the 2-decimal rounding step. -/
theorem C6_amended_haversine_le_output_plus_half_ulp (lat1 lng1 lat2 lng2 : ℝ)
    (h1 : -90 ≤ lat1) (h2 : lat1 ≤ 90) (h3 : -90 ≤ lat2) (h4 : lat2 ≤ 90)
    (h5 : -180 ≤ lng1) (h6 : lng1 ≤ 180) (h7 : -180 ≤ lng2) (h8 : lng2 ≤ 180) :
    haversine_spec lat1 lng1 lat2 lng2 ≤
      calculate_driving_distance lat1 lng1 lat2 lng2 + 1 / 200 := by
  rw [calculate_eq_spec lat1 lng1 lat2 lng2 h1 h2 h3 h4]
  have hs0 := haversine_spec_nonneg lat1 lng1 lat2 lng2
  have hle := le_roundTo 2 (haversine_spec lat1 lng1 lat2 lng2 * 1.3)
  have hgrow : haversine_spec lat1 lng1 lat2 lng2 ≤
      haversine_spec lat1 lng1 lat2 lng2 * 1.3 := by nlinarith [hs0]
  have hconv : (1 : ℝ) / (2 * 10 ^ 2) = 1 / 200 := by norm_num
  rw [hconv] at hle
  linarith

theorem C6_amended_witness :
    ((-90 : ℝ) ≤ 0 ∧ (0 : ℝ) ≤ 90) ∧
      haversine_spec 0 0 1 1 ≤ calculate_driving_distance 0 0 1 1 + 1 / 200 :=
  ⟨by norm_num,
    C6_amended_haversine_le_output_plus_half_ulp 0 0 1 1 (by norm_num) (by norm_num)
      (by norm_num) (by norm_num) (by norm_num) (by norm_num) (by norm_num) (by norm_num)⟩

/- ---------------- Lemmas on the batch pipeline ---------------- -/

theorem processRow_cases {κ : Type} (g : String → Option κ)
    (cd : κ → κ → Option ℝ) (s e : String) :
    processRow g cd s e =
        ⟨none, none, "Unable to calculate - Missing address", false, []⟩ ∨
      processRow g cd s e =
        ⟨none, none, "Unable to calculate - Start address not found", false, [pyStrip s]⟩ ∨
      processRow g cd s e =
        ⟨none, none, "Unable to calculate - End address not found", false,
          [pyStrip s, pyStrip e]⟩ ∨
      processRow g cd s e =
        ⟨none, none, "Unable to calculate - Distance calculation failed", false,
          [pyStrip s, pyStrip e]⟩ ∨
      ∃ d : ℝ, processRow g cd s e =
        ⟨some d, some (emission_of_distance d), "Success", true, [pyStrip s, pyStrip e]⟩ := by
  simp only [processRow, pd_isna_str, Bool.false_or]
  split_ifs with h
  · exact Or.inl rfl
  · split
    · exact Or.inr (Or.inl rfl)
    · split
      · exact Or.inr (Or.inr (Or.inl rfl))
      · split
        · exact Or.inr (Or.inr (Or.inr (Or.inl rfl)))
        · exact Or.inr (Or.inr (Or.inr (Or.inr ⟨_, rfl⟩)))

theorem processRow_invariant {κ : Type} (g : String → Option κ)
    (cd : κ → κ → Option ℝ) (s e : String) :
    ((processRow g cd s e).status = "Success" ↔
      ((processRow g cd s e).distance.isSome ∧ (processRow g cd s e).emission.isSome)) ∧
      ((processRow g cd s e).status ≠ "Success" →
        (processRow g cd s e).distance = none ∧ (processRow g cd s e).emission = none) ∧
      (∀ d : ℝ, (processRow g cd s e).distance = some d →
        (processRow g cd s e).emission = some (roundTo 3 (d * 0.2))) := by
  rcases processRow_cases g cd s e with h | h | h | h | ⟨d, h⟩ <;> rw [h]
  · exact ⟨by simp, fun _ => ⟨rfl, rfl⟩, by simp⟩
  · exact ⟨by simp, fun _ => ⟨rfl, rfl⟩, by simp⟩
  · exact ⟨by simp, fun _ => ⟨rfl, rfl⟩, by simp⟩
  · exact ⟨by simp, fun _ => ⟨rfl, rfl⟩, by simp⟩
  · refine ⟨by simp, fun hne => absurd rfl hne, ?_⟩
    intro d' hd'
    simp only [Option.some.injEq] at hd'
    subst hd'
    rfl

theorem processRow_counted_eq {κ : Type} (g : String → Option κ)
    (cd : κ → κ → Option ℝ) (s e : String) :
    (processRow g cd s e).counted = ((processRow g cd s e).status == "Success") := by
  rcases processRow_cases g cd s e with h | h | h | h | ⟨d, h⟩ <;> rw [h] <;> rfl

theorem processRow_missing {κ : Type} (g : String → Option κ)
    (cd : κ → κ → Option ℝ) (s e : String)
    (h : pyStrip s = "nan" ∨ pyStrip e = "nan") :
    processRow g cd s e =
      ⟨none, none, "Unable to calculate - Missing address", false, []⟩ := by
  simp only [processRow, pd_isna_str, Bool.false_or]
  rcases h with h | h <;> rw [h] <;> simp

theorem foldl_process {κ : Type} (g : String → Option κ) (cd : κ → κ → Option ℝ)
    (headers : List String) (sCol eCol : String) (rows : List (List String)) :
    ∀ (c : ℕ) (acc : List (List String × RowResult)),
      rows.foldl
        (fun acc' r =>
          let res := processRow g cd (getCell headers r sCol) (getCell headers r eCol)
          (if res.counted then acc'.1 + 1 else acc'.1, acc'.2 ++ [(r, res)]))
        (c, acc) =
      (c + rows.countP
          (fun r => (processRow g cd (getCell headers r sCol) (getCell headers r eCol)).counted),
        acc ++ rows.map
          (fun r => (r, processRow g cd (getCell headers r sCol) (getCell headers r eCol)))) := by
  induction rows with
  | nil => intro c acc; simp
  | cons r rs ih =>
    intro c acc
    simp only [List.foldl_cons, List.countP_cons, List.map_cons]
    rw [ih]
    by_cases h : (processRow g cd (getCell headers r sCol) (getCell headers r eCol)).counted
    · simp [h, List.append_assoc]
      omega
    · simp [h, List.append_assoc]

theorem process_csv_file_some {κ : Type} (g : String → Option κ)
    (cd : κ → κ → Option ℝ) (t : Table) (sCol eCol : String)
    (h : findMapping (t.headers.map pyStrip) = (some sCol, some eCol)) :
    process_csv_file g cd t =
      (some (t.headers.map pyStrip ++
          ["Distance_KM", "CO2_Emissions_KG", "Calculation_Status"],
        t.rows.map fun r =>
          (r, processRow g cd (getCell (t.headers.map pyStrip) r sCol)
            (getCell (t.headers.map pyStrip) r eCol))),
        "Processed " ++
          toString (t.rows.countP fun r =>
            (processRow g cd (getCell (t.headers.map pyStrip) r sCol)
              (getCell (t.headers.map pyStrip) r eCol)).counted) ++
          " out of " ++ toString t.rows.length ++ " records successfully") := by
  simp only [process_csv_file, h]
  rw [foldl_process]
  simp

theorem process_csv_file_none {κ : Type} (g : String → Option κ)
    (cd : κ → κ → Option ℝ) (t : Table)
    (h : (findMapping (t.headers.map pyStrip)).1 = none ∨
      (findMapping (t.headers.map pyStrip)).2 = none) :
    process_csv_file g cd t =
      (none, "CSV must contain \x27Start Address\x27 and \x27End Address\x27 columns") := by
  simp only [process_csv_file]
  rcases hm : findMapping (t.headers.map pyStrip) with ⟨o1, o2⟩
  rw [hm] at h
  rcases h with h | h
  · subst h
    rfl
  · subst h
    cases o1 <;> rfl

theorem findMapping_fst_none (hs : List String)
    (h : ∀ c ∈ hs, isStartCol c = false) : (findMapping hs).1 = none := by
  unfold findMapping
  suffices H : ∀ init : Option String × Option String,
      (∀ c ∈ hs, isStartCol c = false) →
      (hs.foldl (fun m col =>
        if isStartCol col then (some col, m.2)
        else if isEndCol col then (m.1, some col)
        else m) init).1 = init.1 from H (none, none) h
  clear h
  induction hs with
  | nil => intro init _; rfl
  | cons c cs ih =>
    intro init h
    simp only [List.foldl_cons]
    rw [if_neg (by simp [h c (by simp)])]
    by_cases he : isEndCol c
    · rw [if_pos he]
      exact ih (init.1, some c) fun x hx => h x (by simp [hx])
    · rw [if_neg he]
      exact ih init fun x hx => h x (by simp [hx])

theorem findMapping_snd_none (hs : List String)
    (h : ∀ c ∈ hs, isEndCol c = false) : (findMapping hs).2 = none := by
  unfold findMapping
  suffices H : ∀ init : Option String × Option String,
      (∀ c ∈ hs, isEndCol c = false) →
      (hs.foldl (fun m col =>
        if isStartCol col then (some col, m.2)
        else if isEndCol col then (m.1, some col)
        else m) init).2 = init.2 from H (none, none) h
  clear h
  induction hs with
  | nil => intro init _; rfl
  | cons c cs ih =>
    intro init h
    simp only [List.foldl_cons]
    by_cases hs' : isStartCol c
    · rw [if_pos hs']
      exact ih (some c, init.2) fun x hx => h x (by simp [hx])
    · rw [if_neg hs', if_neg (by simp [h c (by simp)])]
      exact ih init fun x hx => h x (by simp [hx])

/- ---------------- Claims C1, C4, C7, C8, C9, C10 ---------------- -/

/-- C7: whenever the (stripped) headers do not contain both a column
matching the start/address pattern and a column matching the end/address
pattern, the batch aborts: no output table is produced (so no record is
processed) and the structural error message is returned. -/
theorem C7_missing_columns_abort {κ : Type} (g : String → Option κ)
    (cd : κ → κ → Option ℝ) (t : Table)
    (h : ¬ ((∃ c ∈ t.headers.map pyStrip, isStartCol c = true) ∧
      (∃ c ∈ t.headers.map pyStrip, isEndCol c = true))) :
    (process_csv_file g cd t).1 = none ∧
      (process_csv_file g cd t).2 =
        "CSV must contain \x27Start Address\x27 and \x27End Address\x27 columns" := by
  have habort : process_csv_file g cd t =
      (none, "CSV must contain \x27Start Address\x27 and \x27End Address\x27 columns") := by
    apply process_csv_file_none
    rcases not_and_or.mp h with h1 | h1
    · push_neg at h1
      refine Or.inl (findMapping_fst_none _ fun c hc => ?_)
      cases hb : isStartCol c with
      | false => rfl
      | true => exact absurd hb (h1 c hc)
    · push_neg at h1
      refine Or.inr (findMapping_snd_none _ fun c hc => ?_)
      cases hb : isEndCol c with
      | false => rfl
      | true => exact absurd hb (h1 c hc)
  exact ⟨by rw [habort], by rw [habort]⟩

theorem C7_missing_columns_abort_witness :
    (¬ ((∃ c ∈ ([" Start  Addr", "foo"] : List String).map pyStrip, isStartCol c = true) ∧
      (∃ c ∈ ([" Start  Addr", "foo"] : List String).map pyStrip, isEndCol c = true))) ∧
      ((process_csv_file (fun _ : String => (none : Option Unit)) (fun _ _ => none)
          (Table.mk [" Start  Addr", "foo"] [["a", "b"]])).1 = none ∧
        (process_csv_file (fun _ : String => (none : Option Unit)) (fun _ _ => none)
          (Table.mk [" Start  Addr", "foo"] [["a", "b"]])).2 =
          "CSV must contain \x27Start Address\x27 and \x27End Address\x27 columns") :=
  ⟨by decide,
    C7_missing_columns_abort (fun _ : String => (none : Option Unit)) (fun _ _ => none)
      (Table.mk [" Start  Addr", "foo"] [["a", "b"]]) (by decide)⟩

/-- C8: for every batch that was not aborted, the returned summary is
exactly "Processed X out of Y records successfully" with Y the number of
input records and X the number of output records whose status is
Success. -/
theorem C8_summary_counts_success {κ : Type} (g : String → Option κ)
    (cd : κ → κ → Option ℝ) (t : Table) (hs : List String)
    (rs : List (List String × RowResult))
    (h : (process_csv_file g cd t).1 = some (hs, rs)) :
    (process_csv_file g cd t).2 =
      "Processed " ++ toString (rs.countP fun p => p.2.status == "Success") ++
        " out of " ++ toString t.rows.length ++ " records successfully" := by
  rcases hm : findMapping (t.headers.map pyStrip) with ⟨o1, o2⟩
  cases o1 with
  | none =>
    rw [process_csv_file_none g cd t (by rw [hm]; exact Or.inl rfl)] at h
    simp at h
  | some sCol =>
    cases o2 with
    | none =>
      rw [process_csv_file_none g cd t (by rw [hm]; exact Or.inr rfl)] at h
      simp at h
    | some eCol =>
      have hp := process_csv_file_some g cd t sCol eCol hm
      rw [hp] at h
      simp only [Option.some.injEq, Prod.mk.injEq] at h
      obtain ⟨h1, h2⟩ := h
      subst h2
      rw [hp]
      have hcnt : ((t.rows.map fun r =>
          (r, processRow g cd (getCell (t.headers.map pyStrip) r sCol)
            (getCell (t.headers.map pyStrip) r eCol))).countP
            fun p => p.2.status == "Success") =
          t.rows.countP fun r =>
            (processRow g cd (getCell (t.headers.map pyStrip) r sCol)
              (getCell (t.headers.map pyStrip) r eCol)).counted := by
        rw [List.countP_map]
        apply List.countP_congr
        intro r _
        simp only [Function.comp_apply]
        rw [processRow_counted_eq g cd _ _]
      rw [hcnt]

theorem C8_summary_counts_success_witness :
    ((process_csv_file (fun _ : String => (none : Option Unit)) (fun _ _ => none)
        (Table.mk ["Start Address", "End Address"] [["nan", "x"]])).1 =
      some (["Start Address", "End Address", "Distance_KM", "CO2_Emissions_KG",
          "Calculation_Status"],
        [(["nan", "x"],
          ⟨none, none, "Unable to calculate - Missing address", false, []⟩)])) ∧
      (process_csv_file (fun _ : String => (none : Option Unit)) (fun _ _ => none)
        (Table.mk ["Start Address", "End Address"] [["nan", "x"]])).2 =
        "Processed 0 out of 1 records successfully" := by
  refine ⟨rfl, ?_⟩
  have h := C8_summary_counts_success (fun _ : String => (none : Option Unit))
    (fun _ _ => none) (Table.mk ["Start Address", "End Address"] [["nan", "x"]])
    (["Start Address", "End Address", "Distance_KM", "CO2_Emissions_KG",
      "Calculation_Status"])
    ([(["nan", "x"], ⟨none, none, "Unable to calculate - Missing address", false, []⟩)])
    rfl
  exact h.trans rfl

/-- C9: for every batch that was not aborted, the output rows are the
input rows in order (so the row count is preserved and every original
cell is unchanged), and the header row is the original (stripped)
headers with exactly the three columns Distance_KM, CO2_Emissions_KG,
Calculation_Status appended. -/
theorem C9_output_preserves_rows {κ : Type} (g : String → Option κ)
    (cd : κ → κ → Option ℝ) (t : Table) (hs : List String)
    (rs : List (List String × RowResult))
    (h : (process_csv_file g cd t).1 = some (hs, rs)) :
    rs.map Prod.fst = t.rows ∧ rs.length = t.rows.length ∧
      hs = t.headers.map pyStrip ++
        ["Distance_KM", "CO2_Emissions_KG", "Calculation_Status"] := by
  rcases hm : findMapping (t.headers.map pyStrip) with ⟨o1, o2⟩
  cases o1 with
  | none =>
    rw [process_csv_file_none g cd t (by rw [hm]; exact Or.inl rfl)] at h
    simp at h
  | some sCol =>
    cases o2 with
    | none =>
      rw [process_csv_file_none g cd t (by rw [hm]; exact Or.inr rfl)] at h
      simp at h
    | some eCol =>
      rw [process_csv_file_some g cd t sCol eCol hm] at h
      simp only [Option.some.injEq, Prod.mk.injEq] at h
      obtain ⟨h1, h2⟩ := h
      subst h2
      refine ⟨?_, ?_, h1.symm⟩
      · rw [List.map_map]
        rw [show (Prod.fst ∘ fun r : List String =>
          (r, processRow g cd (getCell (t.headers.map pyStrip) r sCol)
            (getCell (t.headers.map pyStrip) r eCol))) = id from rfl]
        exact List.map_id t.rows
      · simp

theorem C9_output_preserves_rows_witness :
    ((process_csv_file (fun _ : String => (none : Option Unit)) (fun _ _ => none)
        (Table.mk ["Start Address", "End Address"] [["nan", "y"]])).1 =
      some (["Start Address", "End Address", "Distance_KM", "CO2_Emissions_KG",
          "Calculation_Status"],
        [(["nan", "y"],
          ⟨none, none, "Unable to calculate - Missing address", false, []⟩)])) ∧
      (([(["nan", "y"],
          (⟨none, none, "Unable to calculate - Missing address", false, []⟩ : RowResult))].map
            Prod.fst = [["nan", "y"]]) ∧
        ([(["nan", "y"],
          (⟨none, none, "Unable to calculate - Missing address", false, []⟩ : RowResult))].length =
            ([["nan", "y"]] : List (List String)).length) ∧
        (["Start Address", "End Address", "Distance_KM", "CO2_Emissions_KG",
            "Calculation_Status"] =
          (["Start Address", "End Address"] : List String).map pyStrip ++
            ["Distance_KM", "CO2_Emissions_KG", "Calculation_Status"])) :=
  ⟨rfl,
    C9_output_preserves_rows (fun _ : String => (none : Option Unit)) (fun _ _ => none)
      (Table.mk ["Start Address", "End Address"] [["nan", "y"]]) _ _ rfl⟩

/-- C1: in every processed batch, the status of a record is Success exactly
when both its distance and its emission are present; any other status
leaves both absent; and a present pair satisfies
emission = round(distance × 0.2, 3). -/
theorem C1_success_iff_fields_present {κ : Type} (g : String → Option κ)
    (cd : κ → κ → Option ℝ) (t : Table) (hs : List String)
    (rs : List (List String × RowResult))
    (h : (process_csv_file g cd t).1 = some (hs, rs)) :
    ∀ p ∈ rs,
      ((p.2.status = "Success" ↔ (p.2.distance.isSome ∧ p.2.emission.isSome)) ∧
        (p.2.status ≠ "Success" → p.2.distance = none ∧ p.2.emission = none) ∧
        (∀ d : ℝ, p.2.distance = some d →
          p.2.emission = some (roundTo 3 (d * 0.2)))) := by
  rcases hm : findMapping (t.headers.map pyStrip) with ⟨o1, o2⟩
  cases o1 with
  | none =>
    rw [process_csv_file_none g cd t (by rw [hm]; exact Or.inl rfl)] at h
    simp at h
  | some sCol =>
    cases o2 with
    | none =>
      rw [process_csv_file_none g cd t (by rw [hm]; exact Or.inr rfl)] at h
      simp at h
    | some eCol =>
      rw [process_csv_file_some g cd t sCol eCol hm] at h
      simp only [Option.some.injEq, Prod.mk.injEq] at h
      obtain ⟨h1, h2⟩ := h
      subst h2
      intro p hp
      rw [List.mem_map] at hp
      obtain ⟨r, hr, rfl⟩ := hp
      exact processRow_invariant g cd _ _

theorem C1_success_iff_fields_present_witness :
    ((process_csv_file (fun _ : String => some ()) (fun _ _ => some 1)
        (Table.mk ["Start Address", "End Address"] [["A", "B"]])).1 =
      some (["Start Address", "End Address", "Distance_KM", "CO2_Emissions_KG",
          "Calculation_Status"],
        [(["A", "B"],
          ⟨some 1, some (emission_of_distance 1), "Success", true, ["A", "B"]⟩)])) ∧
      ((RowResult.mk (some 1) (some (emission_of_distance 1)) "Success" true
          ["A", "B"]).status = "Success" ↔
        ((RowResult.mk (some 1) (some (emission_of_distance 1)) "Success" true
          ["A", "B"]).distance.isSome ∧
          (RowResult.mk (some 1) (some (emission_of_distance 1)) "Success" true
            ["A", "B"]).emission.isSome)) :=
  ⟨rfl,
    (C1_success_iff_fields_present (fun _ : String => some ()) (fun _ _ => some 1)
      (Table.mk ["Start Address", "End Address"] [["A", "B"]]) _ _ rfl
      (["A", "B"],
        ⟨some 1, some (emission_of_distance 1), "Success", true, ["A", "B"]⟩)
      (List.mem_singleton.mpr rfl)).1⟩

/-- C10: a record whose stripped origin or destination cell is the
literal string "nan" (what `str()` produces from a pandas missing cell)
is given the missing-address status and triggers no geocoding call at
all, even though "nan" is a non-empty string. -/
theorem C10_nan_string_means_missing {κ : Type} (g : String → Option κ)
    (cd : κ → κ → Option ℝ) (s e : String)
    (h : pyStrip s = "nan" ∨ pyStrip e = "nan") :
    (processRow g cd s e).status = "Unable to calculate - Missing address" ∧
      (processRow g cd s e).calls = [] := by
  rw [processRow_missing g cd s e h]
  exact ⟨rfl, rfl⟩

theorem C10_nan_string_means_missing_witness :
    (pyStrip " nan " = "nan" ∨ pyStrip "Changi Airport" = "nan") ∧
      ((processRow (fun _ : String => some ()) (fun _ _ => some 1)
          " nan " "Changi Airport").status = "Unable to calculate - Missing address" ∧
        (processRow (fun _ : String => some ()) (fun _ _ => some 1)
          " nan " "Changi Airport").calls = []) :=
  ⟨Or.inl rfl,
    C10_nan_string_means_missing (fun _ : String => some ()) (fun _ _ => some 1)
      " nan " "Changi Airport" (Or.inl rfl)⟩

/-- C4 is contradicted by the code: for a row whose origin address is
the empty string, the guard on app.py line 127
(`pd.isna(start_addr) or start_addr == "nan"` — applied after `str(...)`
conversion, so `pd.isna` is constantly false and `"" != "nan"`) does NOT
fire.  The empty origin IS sent to the geocoder; with a geocoder that
resolves it the record even ends in Success, and with one that does not
it ends in the start-address-not-found status — never MissingAddress. -/
theorem C4_empty_address_is_geocoded :
    ((processRow (fun _ : String => some ()) (fun _ _ => some 1) "" "B").status =
        "Success" ∧
      (processRow (fun _ : String => some ()) (fun _ _ => some 1) "" "B").calls =
        ["", "B"]) ∧
      (processRow (fun _ : String => (none : Option Unit)) (fun _ _ => none) "" "B").status =
        "Unable to calculate - Start address not found" :=
  ⟨⟨rfl, rfl⟩, rfl⟩
